import Mathlib

/-!
Verification of the job-status reconciliation engine of the YouTube Auto Dub
frontend (`src/static/app.js`).

The engine watches one dubbing job through two redundant channels — an SSE
push subscription (`startSSE`) and a polling loop (`startPolling`) — feeds
every snapshot through `updateProgress`, and tears the session down on a
terminal snapshot (`finishSuccess` / `finishError`).  The definitions below
are a shallow embedding of that code: the module-level mutable variables of
`app.js` become fields of an explicit state record `St`, and the four kinds
of asynchronous callbacks become a step function `step : Ev → St → St`.
-/

/-- Rendering state of one pipeline-stage element (a `.stage` DOM node):
`pending` = neither the `active` nor the `done` CSS class (status text
"Waiting"), `inProgress` = class `active` ("Processing..."), `complete` =
class `done` ("Complete ✓"). -/
inductive StageView
  | pending
  | inProgress
  | complete
deriving DecidableEq, Repr

/-- `STAGE_ORDER` (app.js line 43): the fixed ordered stage sequence. -/
def STAGE_ORDER : List String :=
  ["download", "transcribe", "chunk", "translate", "tts", "render", "done"]

/-- Reconnection delay in milliseconds, from `setTimeout(connect, 2000)`
(app.js line 320). -/
def RECONNECT_DELAY_MS : Nat := 2000

/-- Poll period in milliseconds, from `setInterval(..., 1500)`
(app.js line 347). -/
def POLL_INTERVAL_MS : Nat := 1500

/-- `maxRetries` (app.js line 292): bound on SSE reconnection attempts. -/
def maxRetries : Nat := 5

/-- Accumulator-style index search over a list of strings, returning `-1`
when the element is absent — the behaviour of JavaScript
`Array.prototype.indexOf`. -/
def indexOfAux (x : String) : List String → Int → Int
  | [], _ => -1
  | y :: ys, i => if y = x then i else indexOfAux x ys (i + 1)

/-- `l.indexOf(v)` where `v` may be `undefined`/`null` (then `-1`), as in
`STAGE_ORDER.indexOf(data.stage)` (app.js line 370). -/
def jsIndexOf (l : List String) (x : Option String) : Int :=
  match x with
  | none => -1
  | some s => indexOfAux s l 0

/-- JavaScript `x || d` for an optional string: an absent or empty string is
falsy and yields the default. -/
def jsOrS (x : Option String) (d : String) : String :=
  match x with
  | some v => if v = "" then d else v
  | none => d

/-- JavaScript template interpolation of a possibly-`null` job id
(`null` prints as `"null"`). -/
def jsIdStr : Option String → String
  | some j => j
  | none => "null"

/-- A job-state snapshot: the JSON body delivered both by the SSE push
channel (`/api/status/`) and by the poll fetch (`/api/job/`), as consumed by
`updateProgress`. -/
structure JobSnapshot where
  status : String
  stage : Option String
  progress : Option Int
  message : Option String
  error : Option String
deriving DecidableEq, Repr

/-- The pieces of the DOM that `updateProgress`, `finishSuccess` and
`finishError` mutate. -/
@[ext]
structure UI where
  progressFillPct : Int
  progressTextPct : Int
  statusMessage : String
  stages : List StageView
  resultVisible : Bool
  successVisible : Bool
  errorVisible : Bool
  resultMessage : String
  errorMessage : String
  downloadHref : String
deriving DecidableEq, Repr

/-- Client state: the module-level variables of `app.js`
(`currentJobId`, `eventSource`, `pollTimer`), the `localStorage` key
`yt_dub_job_id` (`storage`), and the `startSSE` closure state
(`retryCount` plus the pending `setTimeout(connect, ...)` timer, which the
code never keeps a handle to and hence can never cancel). -/
@[ext]
structure St where
  currentJobId : Option String
  storage : Option String
  eventSource : Bool
  retryCount : Nat
  pendingReconnect : Option Nat
  pollTimer : Bool
  ui : UI
deriving DecidableEq, Repr

/-- Stage rendering of `updateProgress` (app.js lines 368-386) for one stage
element: compare the element's index in `STAGE_ORDER` with the index of the
snapshot's stage. -/
def stageView (status : String) (stage : Option String) (stageId : String) :
    StageView :=
  let currentIdx := jsIndexOf STAGE_ORDER stage
  let stageIdx := jsIndexOf STAGE_ORDER (some stageId)
  if stageIdx < currentIdx then StageView.complete
  else if stageIdx = currentIdx ∧ status = "running" then StageView.inProgress
  else StageView.pending

/-- The full stage column produced by `updateProgress`: one view per element
of `STAGE_ORDER`. -/
def renderStages (status : String) (stage : Option String) : List StageView :=
  STAGE_ORDER.map (stageView status stage)

/-- The DOM updates of `updateProgress` before its terminal check
(app.js lines 357-386): progress bar and text from `data.progress || 0`,
status message only when `data.message` is truthy, and the stage column. -/
def updateProgressUI (d : JobSnapshot) (ui : UI) : UI :=
  { ui with
    progressFillPct := d.progress.getD 0
    progressTextPct := d.progress.getD 0
    statusMessage :=
      match d.message with
      | some m => if m = "" then ui.statusMessage else m
      | none => ui.statusMessage
    stages := renderStages d.status d.stage }

/-- `finishSuccess` (app.js lines 400-424): close the SSE subscription, stop
polling, clear the resume store, force every stage to complete and the bar
to 100, and show the success view with the download link built from
`currentJobId`.  Note: it does not cancel a pending reconnection timer. -/
def finishSuccess (d : JobSnapshot) (s : St) : St :=
  { s with
    eventSource := false
    pollTimer := false
    storage := none
    ui := { s.ui with
      stages := s.ui.stages.map (fun _ => StageView.complete)
      progressFillPct := 100
      progressTextPct := 100
      resultVisible := true
      successVisible := true
      errorVisible := false
      resultMessage := jsOrS d.message "Your video has been dubbed successfully!"
      downloadHref := "/api/download/" ++ jsIdStr s.currentJobId } }

/-- `finishError` (app.js lines 426-436): clear the resume store, close the
SSE subscription, and show the failure view with `data.error`.  Note: unlike
`finishSuccess` it does not call `stopPolling`, and it does not cancel a
pending reconnection timer. -/
def finishError (d : JobSnapshot) (s : St) : St :=
  { s with
    storage := none
    eventSource := false
    ui := { s.ui with
      resultVisible := true
      successVisible := false
      errorVisible := true
      errorMessage := jsOrS d.error "An unknown error occurred." } }

/-- `updateProgress` (app.js lines 357-394): apply the snapshot to the UI,
then dispatch on the terminal status. -/
def updateProgress (d : JobSnapshot) (s : St) : St :=
  if d.status = "complete" then finishSuccess d { s with ui := updateProgressUI d s.ui }
  else if d.status = "error" then finishError d { s with ui := updateProgressUI d s.ui }
  else { s with ui := updateProgressUI d s.ui }

/-- `showProgress` (app.js lines 268-284): reset all stage elements to
"Waiting", the bar to 0, and hide the result section. -/
def showProgressUI (ui : UI) : UI :=
  { ui with
    resultVisible := false
    stages := ui.stages.map (fun _ => StageView.pending)
    progressFillPct := 0
    progressTextPct := 0 }

/-- The asynchronous callbacks that can fire during a session. -/
inductive Ev
  | sseMessage (msg : Option JobSnapshot)
  | sseError
  | reconnectFire
  | pollTick (res : Option JobSnapshot)
deriving DecidableEq, Repr

/-- The SSE `onmessage` handler (app.js lines 297-312).  It fires only while
a subscription object exists.  `retryCount` is reset before parsing, so even
a malformed message (`msg = none`, `JSON.parse` throws) resets it.  On a
terminal snapshot the handler then runs `eventSource.close()` — but
`finishSuccess`/`finishError` inside `updateProgress` have already set
`eventSource = null`, so that call raises a TypeError which the surrounding
`try` swallows, and the handler's own `stopPolling()` is never reached; this
is modelled by the inner `if s2.eventSource` test. -/
def stepSseMessage (msg : Option JobSnapshot) (s : St) : St :=
  if s.eventSource then
    let s1 := { s with retryCount := 0 }
    match msg with
    | none => s1
    | some d =>
      let s2 := updateProgress d s1
      if d.status = "complete" ∨ d.status = "error" then
        if s2.eventSource then { s2 with eventSource := false, pollTimer := false }
        else s2
      else s2
  else s

/-- The SSE `onerror` handler (app.js lines 314-322): tear the subscription
down, bump `retryCount`, and schedule a reconnection after
`RECONNECT_DELAY_MS` while `retryCount <= maxRetries`. -/
def stepSseError (s : St) : St :=
  if s.eventSource then
    let s1 := { s with eventSource := false, retryCount := s.retryCount + 1 }
    if s1.retryCount ≤ maxRetries then
      { s1 with pendingReconnect := some RECONNECT_DELAY_MS }
    else s1
  else s

/-- The pending `setTimeout(connect, 2000)` firing: `connect()` opens a new
`EventSource` unconditionally. -/
def stepReconnectFire (s : St) : St :=
  match s.pendingReconnect with
  | some _ => { s with pendingReconnect := none, eventSource := true }
  | none => s

/-- One tick of the polling loop (app.js lines 334-347) together with the
result of its fetch: `none` models a network failure or a non-ok response
(both swallowed), `some d` a parsed snapshot.  On a terminal snapshot the
poll handler stops itself and closes the SSE subscription (here the close is
guarded by `if (eventSource)`, so no exception occurs). -/
def stepPollTick (res : Option JobSnapshot) (s : St) : St :=
  if s.pollTimer then
    match res with
    | none => s
    | some d =>
      let s1 := updateProgress d s
      if d.status = "complete" ∨ d.status = "error" then
        { s1 with pollTimer := false, eventSource := false }
      else s1
  else s

/-- Dispatch one asynchronous callback. -/
def step : Ev → St → St
  | Ev.sseMessage m, s => stepSseMessage m s
  | Ev.sseError, s => stepSseError s
  | Ev.reconnectFire, s => stepReconnectFire s
  | Ev.pollTick r, s => stepPollTick r s

/-- Run a sequence of callbacks. -/
def run (evs : List Ev) (s : St) : St :=
  evs.foldl (fun acc e => step e acc) s

/-- "The push channel is stopped": no live subscription and no pending
reconnection timer. -/
def pushStopped (s : St) : Prop :=
  s.eventSource = false ∧ s.pendingReconnect = none

/-- Initial DOM: all seven stage elements "Waiting", bar at 0, nothing
shown. -/
def initUI : UI :=
  { progressFillPct := 0
    progressTextPct := 0
    statusMessage := ""
    stages := List.replicate 7 StageView.pending
    resultVisible := false
    successVisible := false
    errorVisible := false
    resultMessage := ""
    errorMessage := ""
    downloadHref := "" }

/-- State right after a fresh submission on a fresh page (`handleSubmit`
success path, app.js lines 247-250): id persisted, display reset, SSE
connected with a fresh `retryCount`, polling started. -/
def sessionStart (jid : String) : St :=
  { currentJobId := some jid
    storage := some jid
    eventSource := true
    retryCount := 0
    pendingReconnect := none
    pollTimer := true
    ui := initUI }

/-- State of a freshly loaded page that still holds a persisted job id:
nothing running yet. -/
def idleSt (jid : String) : St :=
  { currentJobId := none
    storage := some jid
    eventSource := false
    retryCount := 0
    pendingReconnect := none
    pollTimer := false
    ui := initUI }

/-- Result of the single state query made by `resumeActiveJob`
(app.js line 62): `netError` = `fetch` rejects, `badStatus` = `!res.ok`,
`badJson` = `res.json()` throws, `ok d` = a parsed snapshot. -/
inductive FetchResult
  | netError
  | badStatus
  | badJson
  | ok (d : JobSnapshot)
deriving DecidableEq, Repr

/-- `resumeActiveJob` (app.js lines 57-94), given the outcome of its one
fetch.  The guard `if (!savedJobId) return` (line 59) returns early both
for a missing value and for a persisted empty string (falsy), leaving the
store untouched.  Past the guard, `!res.ok` (line 63), a network failure
and a malformed body (both reaching the `catch` on line 91) all remove the
persisted id. -/
def resumeActiveJob (fr : FetchResult) (s : St) : St :=
  match s.storage with
  | none => s
  | some jid =>
    if jid = "" then s
    else match fr with
    | FetchResult.netError => { s with storage := none }
    | FetchResult.badStatus => { s with storage := none }
    | FetchResult.badJson => { s with storage := none }
    | FetchResult.ok d =>
      if d.status = "running" ∨ d.status = "queued" then
        let s1 := { s with currentJobId := some jid, ui := showProgressUI s.ui }
        let s2 := updateProgress d s1
        { s2 with eventSource := true, retryCount := 0, pollTimer := true }
      else if d.status = "complete" then
        let s1 := { s with currentJobId := some jid, ui := showProgressUI s.ui }
        finishSuccess d (updateProgress d s1)
      else if d.status = "error" then
        let s1 := { s with currentJobId := some jid, ui := showProgressUI s.ui }
        finishError d (updateProgress d s1)
      else { s with storage := none }

/-- The browser storage backing the resume store: either working (holding
the optional persisted id) or faulted, in which case every access throws —
`localStorage.getItem`/`setItem` can raise, e.g. a SecurityError when
storage is disabled. -/
inductive StorageLayer
  | working (v : Option String)
  | faulted
deriving DecidableEq, Repr

/-- `resumeActiveJob` including its very first statement,
`localStorage.getItem('yt_dub_job_id')` (app.js line 58).  That call sits
before — outside — the function's `try`/`catch`, so when the storage layer
faults the exception escapes `resumeActiveJob` itself (`Except.error`). -/
def resumeActiveJobLS (ls : StorageLayer) (fr : FetchResult) (s : St) :
    Except Unit St :=
  match ls with
  | StorageLayer.faulted => Except.error ()
  | StorageLayer.working v => Except.ok (resumeActiveJob fr { s with storage := v })

/-- Modelled from the spec: the display clamp the spec prescribes for the
progress bar ("clamped to `[0,100]` for display"), stated here only to be
compared against the code's actual bar update. -/
def clampSpec (p : Int) : Int := max 0 (min 100 p)

/- Concrete snapshots and traces used by counterexamples and witnesses. -/

def snapErrBoom : JobSnapshot := ⟨"error", none, some 80, none, some "boom"⟩

def snapErrDisk : JobSnapshot := ⟨"error", none, some 55, none, some "disk full"⟩

def snapComplete : JobSnapshot := ⟨"complete", some "done", some 100, some "done", none⟩

def snapRun25 : JobSnapshot := ⟨"running", some "transcribe", some 25, some "Transcribing", none⟩

def snapRunChunk : JobSnapshot := ⟨"running", some "chunk", some 40, none, none⟩

def snapQueued : JobSnapshot := ⟨"queued", some "translate", some 0, none, none⟩

def snapRunNeg : JobSnapshot := ⟨"running", some "tts", some (-5), none, none⟩

def snapRunUpload : JobSnapshot := ⟨"running", some "upload", some 10, none, none⟩

/-- Five consecutive SSE transport failures, each followed by the scheduled
reconnection firing except the last. -/
def fiveErrTrace : List Ev :=
  [Ev.sseError, Ev.reconnectFire, Ev.sseError, Ev.reconnectFire, Ev.sseError,
   Ev.reconnectFire, Ev.sseError, Ev.reconnectFire, Ev.sseError]

/-- Session state after two failed connections, each reconnected. -/
def s2after : St :=
  run [Ev.sseError, Ev.reconnectFire, Ev.sseError, Ev.reconnectFire] (sessionStart "j3")

/-- Session state with `retryCount = 5` and a live subscription: the fifth
scheduled reconnection has just fired. -/
def s5after : St := run (fiveErrTrace ++ [Ev.reconnectFire]) (sessionStart "j3")

/-- Fully quiesced state: a `complete` snapshot arrived over SSE. -/
def sStopped : St := run [Ev.sseMessage (some snapComplete)] (sessionStart "j2a")

example : (sessionStart "x").pollTimer = true := rfl

example : s2after.retryCount = 2 ∧ s2after.eventSource = true := by decide

example : s5after.retryCount = 5 ∧ s5after.eventSource = true ∧
    s5after.pendingReconnect = none := by decide

/- ───────────────────────── Helper lemmas ───────────────────────── -/

theorem indexOfAux_eq_neg_one_of_not_mem (x : String) :
    ∀ (l : List String) (n : Int), x ∉ l → indexOfAux x l n = -1 := by
  intro l
  induction l with
  | nil => intro n _; rfl
  | cons y ys ih =>
    intro n hx
    rw [List.mem_cons] at hx
    push_neg at hx
    rw [indexOfAux, if_neg (fun h => hx.1 h.symm)]
    exact ih (n + 1) hx.2

theorem jsIndexOf_eq_neg_one (stage : Option String)
    (h : ∀ S, stage = some S → S ∉ STAGE_ORDER) :
    jsIndexOf STAGE_ORDER stage = -1 := by
  cases stage with
  | none => rfl
  | some S => exact indexOfAux_eq_neg_one_of_not_mem S STAGE_ORDER 0 (h S rfl)

theorem stageView_ne_inProgress (status : String) (stage : Option String)
    (t : String) (h : status ≠ "running") :
    stageView status stage t ≠ StageView.inProgress := by
  simp only [stageView]
  split
  · intro hc; cases hc
  · split
    · rename_i hcond
      exact absurd hcond.2 h
    · intro hc; cases hc

theorem stageView_pending_of_unknown (status : String) (stage : Option String)
    (h : jsIndexOf STAGE_ORDER stage = -1) :
    ∀ t ∈ STAGE_ORDER, stageView status stage t = StageView.pending := by
  intro t ht
  simp only [stageView, h]
  fin_cases ht <;>
    simp only [show jsIndexOf STAGE_ORDER (some "download") = 0 from rfl,
      show jsIndexOf STAGE_ORDER (some "transcribe") = 1 from rfl,
      show jsIndexOf STAGE_ORDER (some "chunk") = 2 from rfl,
      show jsIndexOf STAGE_ORDER (some "translate") = 3 from rfl,
      show jsIndexOf STAGE_ORDER (some "tts") = 4 from rfl,
      show jsIndexOf STAGE_ORDER (some "render") = 5 from rfl,
      show jsIndexOf STAGE_ORDER (some "done") = 6 from rfl] <;>
    norm_num

theorem getD_pending_of_forall (l : List StageView)
    (h : ∀ v ∈ l, v = StageView.pending) :
    ∀ i : Nat, l.getD i StageView.pending = StageView.pending := by
  induction l with
  | nil => intro i; rfl
  | cons x xs ih =>
    intro i
    cases i with
    | zero => simpa using h x (by simp)
    | succ n =>
      rw [List.getD_cons_succ]
      exact ih (fun v hv => h v (by simp [hv])) n

theorem getD_ne_inProgress_of_forall (l : List StageView)
    (h : ∀ v ∈ l, v ≠ StageView.inProgress) :
    ∀ i : Nat, l.getD i StageView.pending ≠ StageView.inProgress := by
  induction l with
  | nil => intro i hc; cases hc
  | cons x xs ih =>
    intro i
    cases i with
    | zero => simpa using h x (by simp)
    | succ n =>
      rw [List.getD_cons_succ]
      exact ih (fun v hv => h v (by simp [hv])) n

theorem updateProgress_nonterminal (d : JobSnapshot) (s : St)
    (hnc : d.status ≠ "complete") (hne : d.status ≠ "error") :
    updateProgress d s = { s with ui := updateProgressUI d s.ui } := by
  rw [updateProgress, if_neg hnc, if_neg hne]

theorem updateProgress_pendingReconnect (d : JobSnapshot) (s : St) :
    (updateProgress d s).pendingReconnect = s.pendingReconnect := by
  unfold updateProgress
  split
  · rfl
  · split
    · rfl
    · rfl

theorem updateProgress_eventSource_false (d : JobSnapshot) (s : St)
    (h : s.eventSource = false) : (updateProgress d s).eventSource = false := by
  unfold updateProgress
  split
  · rfl
  · split
    · rfl
    · exact h

theorem updateProgress_retryCount (d : JobSnapshot) (s : St) :
    (updateProgress d s).retryCount = s.retryCount := by
  unfold updateProgress
  split
  · rfl
  · split
    · rfl
    · rfl

theorem pushStopped_step (e : Ev) (s : St) (h : pushStopped s) :
    pushStopped (step e s) := by
  obtain ⟨h1, h2⟩ := h
  cases e with
  | sseMessage m =>
    simp only [step, stepSseMessage, h1, Bool.false_eq_true, if_false]
    exact ⟨h1, h2⟩
  | sseError =>
    simp only [step, stepSseError, h1, Bool.false_eq_true, if_false]
    exact ⟨h1, h2⟩
  | reconnectFire =>
    simp only [step, stepReconnectFire, h2]
    exact ⟨h1, h2⟩
  | pollTick r =>
    simp only [step, stepPollTick]
    by_cases hp : s.pollTimer = true
    · rw [if_pos hp]
      cases r with
      | none => exact ⟨h1, h2⟩
      | some d =>
        dsimp only
        by_cases ht : d.status = "complete" ∨ d.status = "error"
        · rw [if_pos ht]
          exact ⟨rfl, (updateProgress_pendingReconnect d s).trans h2⟩
        · rw [if_neg ht]
          exact ⟨updateProgress_eventSource_false d s h1,
            (updateProgress_pendingReconnect d s).trans h2⟩
    · rw [if_neg hp]
      exact ⟨h1, h2⟩

theorem pushStopped_run (evs : List Ev) (s : St) (h : pushStopped s) :
    pushStopped (run evs s) := by
  induction evs generalizing s with
  | nil => exact h
  | cons e es ih => exact ih (step e s) (pushStopped_step e s h)

theorem step_eq_of_quiesced (s : St) (h1 : s.eventSource = false)
    (h2 : s.pollTimer = false) (h3 : s.pendingReconnect = none) (e : Ev) :
    step e s = s := by
  cases e with
  | sseMessage m => simp [step, stepSseMessage, h1]
  | sseError => simp [step, stepSseError, h1]
  | reconnectFire => simp [step, stepReconnectFire, h3]
  | pollTick r => simp [step, stepPollTick, h2]

theorem updateProgress_idem (d : JobSnapshot) (s : St)
    (h : d.status = "complete" ∨ d.status = "error") :
    updateProgress d (updateProgress d s) = updateProgress d s := by
  obtain ⟨st, sg, pr, ms, er⟩ := d
  rcases h with h | h <;> simp only at h <;> subst h <;>
    cases ms with
    | none => rfl
    | some m =>
      by_cases hm : m = "" <;>
        simp [updateProgress, updateProgressUI, finishSuccess, finishError,
          jsOrS, hm]

/- ───────────────────────── Claim theorems ───────────────────────── -/

theorem renderStages_running_getD :
    ∀ k i : Fin 7,
      (renderStages "running"
          (some (STAGE_ORDER.getD (k : Nat) ""))).getD (i : Nat) StageView.pending =
        (if (i : Nat) < (k : Nat) then StageView.complete
         else if (i : Nat) = (k : Nat) then StageView.inProgress
         else StageView.pending) := by decide

/-- C4: for every snapshot with status `running` and a stage `S` at position
`k` of the fixed sequence, applying the snapshot renders every stage before
position `k` as complete, position `k` itself as in-progress, and every
stage after it as pending. -/
theorem C4_running_stage_rendering (d : JobSnapshot) (s : St) (k : Fin 7)
    (hrun : d.status = "running")
    (hst : d.stage = some (STAGE_ORDER.getD (k : Nat) "")) (i : Fin 7) :
    (updateProgress d s).ui.stages.getD (i : Nat) StageView.pending =
      (if (i : Nat) < (k : Nat) then StageView.complete
       else if (i : Nat) = (k : Nat) then StageView.inProgress
       else StageView.pending) := by
  have hnc : d.status ≠ "complete" := by rw [hrun]; decide
  have hne : d.status ≠ "error" := by rw [hrun]; decide
  rw [updateProgress_nonterminal d s hnc hne]
  have hs2 : ({ s with ui := updateProgressUI d s.ui }).ui.stages
      = renderStages d.status d.stage := rfl
  rw [hs2, hrun, hst]
  exact renderStages_running_getD k i

/-- C4 witness: a `running/chunk` snapshot renders `download` and
`transcribe` complete, `chunk` in-progress, `translate` and `done`
pending. -/
theorem C4_witness :
    (updateProgress snapRunChunk (sessionStart "j4")).ui.stages.getD 0 StageView.pending = StageView.complete ∧
    (updateProgress snapRunChunk (sessionStart "j4")).ui.stages.getD 1 StageView.pending = StageView.complete ∧
    (updateProgress snapRunChunk (sessionStart "j4")).ui.stages.getD 2 StageView.pending = StageView.inProgress ∧
    (updateProgress snapRunChunk (sessionStart "j4")).ui.stages.getD 3 StageView.pending = StageView.pending ∧
    (updateProgress snapRunChunk (sessionStart "j4")).ui.stages.getD 6 StageView.pending = StageView.pending := by
  have h := C4_running_stage_rendering snapRunChunk (sessionStart "j4")
    ⟨2, by norm_num⟩ rfl rfl
  refine ⟨?_, ?_, ?_, ?_, ?_⟩
  · simpa using h ⟨0, by norm_num⟩
  · simpa using h ⟨1, by norm_num⟩
  · simpa using h ⟨2, by norm_num⟩
  · simpa using h ⟨3, by norm_num⟩
  · simpa using h ⟨6, by norm_num⟩

/-- C5: a snapshot with status `queued` never renders any stage as
in-progress, whatever its `stage` value. -/
theorem C5_queued_no_inProgress (d : JobSnapshot) (s : St)
    (hq : d.status = "queued") (i : Nat) :
    (updateProgress d s).ui.stages.getD i StageView.pending ≠ StageView.inProgress := by
  have hnr : d.status ≠ "running" := by rw [hq]; decide
  have hnc : d.status ≠ "complete" := by rw [hq]; decide
  have hne : d.status ≠ "error" := by rw [hq]; decide
  rw [updateProgress_nonterminal d s hnc hne]
  have hs2 : ({ s with ui := updateProgressUI d s.ui }).ui.stages
      = renderStages d.status d.stage := rfl
  rw [hs2]
  apply getD_ne_inProgress_of_forall
  intro v hv
  rw [renderStages] at hv
  obtain ⟨t, _, rfl⟩ := List.mem_map.mp hv
  exact stageView_ne_inProgress d.status d.stage t hnr

/-- C5 witness: a `queued` snapshot carrying stage `translate` does not
render that stage (position 3) as in-progress. -/
theorem C5_witness :
    (updateProgress snapQueued (sessionStart "j5")).ui.stages.getD 3
      StageView.pending ≠ StageView.inProgress :=
  C5_queued_no_inProgress snapQueued (sessionStart "j5") rfl 3

/-- C10: a non-terminal snapshot whose stage is absent or not one of the
seven names renders every stage as pending, even when status is
`running`. -/
theorem C10_unknown_stage_all_pending (d : JobSnapshot) (s : St)
    (hnc : d.status ≠ "complete") (hne : d.status ≠ "error")
    (hstage : ∀ S, d.stage = some S → S ∉ STAGE_ORDER) (i : Nat) :
    (updateProgress d s).ui.stages.getD i StageView.pending = StageView.pending := by
  rw [updateProgress_nonterminal d s hnc hne]
  have hs2 : ({ s with ui := updateProgressUI d s.ui }).ui.stages
      = renderStages d.status d.stage := rfl
  rw [hs2]
  apply getD_pending_of_forall
  intro v hv
  rw [renderStages] at hv
  obtain ⟨t, ht, rfl⟩ := List.mem_map.mp hv
  exact stageView_pending_of_unknown d.status d.stage
    (jsIndexOf_eq_neg_one d.stage hstage) t ht

/-- C10 witness: a `running` snapshot with the unknown stage name `upload`
renders positions 0 and 4 (and, by the theorem, all others) as pending. -/
theorem C10_witness :
    (updateProgress snapRunUpload (sessionStart "jA")).ui.stages.getD 0 StageView.pending = StageView.pending ∧
    (updateProgress snapRunUpload (sessionStart "jA")).ui.stages.getD 4 StageView.pending = StageView.pending := by
  have h := C10_unknown_stage_all_pending snapRunUpload (sessionStart "jA")
    (by decide) (by decide)
    (by intro S hS
        have hS2 : S = "upload" := by
          simpa [snapRunUpload] using hS.symm
        subst hS2
        decide)
  exact ⟨h 0, h 4⟩

/-- C1 (bug evidence): an `error` snapshot delivered by the SSE push channel
applies the failure outcome and clears the resume store, yet leaves the
polling interval running — `finishError` never calls `stopPolling`, and the
handler's own `stopPolling()` is unreachable because `eventSource` is
already null.  Moreover a reconnection timer pending when a terminal
snapshot arrives over the poll channel survives the teardown and later
reopens the push subscription. -/
theorem C1_terminal_teardown_bug :
    ((stepSseMessage (some snapErrBoom) (sessionStart "j1")).ui.errorVisible = true ∧
     (stepSseMessage (some snapErrBoom) (sessionStart "j1")).storage = none ∧
     (stepSseMessage (some snapErrBoom) (sessionStart "j1")).eventSource = false ∧
     (stepSseMessage (some snapErrBoom) (sessionStart "j1")).pollTimer = true) ∧
    ((run [Ev.sseError, Ev.pollTick (some snapComplete)] (sessionStart "j1")).ui.successVisible = true ∧
     (run [Ev.sseError, Ev.pollTick (some snapComplete)] (sessionStart "j1")).pendingReconnect = some 2000 ∧
     (run [Ev.sseError, Ev.pollTick (some snapComplete), Ev.reconnectFire] (sessionStart "j1")).eventSource = true) := by
  decide

/-- C2 counterexample: the error outcome delivered first by the push channel
is later overridden by a `complete` snapshot from the still-running poll
channel — the terminal outcome is not applied exactly once and subsequent
snapshots are not ignored. -/
theorem C2_counterexample :
    ((stepSseMessage (some snapErrBoom) (sessionStart "j2")).ui.errorVisible = true ∧
     (stepSseMessage (some snapErrBoom) (sessionStart "j2")).ui.successVisible = false) ∧
    ((stepPollTick (some snapComplete) (stepSseMessage (some snapErrBoom) (sessionStart "j2"))).ui.successVisible = true ∧
     (stepPollTick (some snapComplete) (stepSseMessage (some snapErrBoom) (sessionStart "j2"))).ui.errorVisible = false) := by
  decide

/-- C2 amended: applying the same terminal snapshot again is idempotent, and
once both channels are stopped and no reconnection is pending every further
event leaves the state unchanged; but nothing ignores snapshots that a
still-live channel delivers after a terminal outcome. -/
theorem C2_terminal_idempotent_and_quiesced (d : JobSnapshot) (s : St) :
    ((d.status = "complete" ∨ d.status = "error") →
      updateProgress d (updateProgress d s) = updateProgress d s) ∧
    ((s.eventSource = false ∧ s.pollTimer = false ∧ s.pendingReconnect = none) →
      ∀ e : Ev, step e s = s) := by
  constructor
  · intro h
    exact updateProgress_idem d s h
  · intro h e
    exact step_eq_of_quiesced s h.1 h.2.1 h.2.2 e

/-- C2 witness: re-applying the `complete` snapshot to the already-finished
state is a no-op, and the fully quiesced state absorbs further poll ticks
and SSE errors. -/
theorem C2_witness :
    updateProgress snapComplete (updateProgress snapComplete (sessionStart "j2a")) =
      updateProgress snapComplete (sessionStart "j2a") ∧
    step (Ev.pollTick (some snapErrBoom)) sStopped = sStopped ∧
    step Ev.sseError sStopped = sStopped := by
  have h1 := (C2_terminal_idempotent_and_quiesced snapComplete (sessionStart "j2a")).1
    (Or.inl rfl)
  have h2 := (C2_terminal_idempotent_and_quiesced snapComplete sStopped).2
    (by refine ⟨?_, ?_, ?_⟩ <;> decide)
  exact ⟨h1, h2 (Ev.pollTick (some snapErrBoom)), h2 Ev.sseError⟩

/-- C3 counterexample: after five consecutive transport failures (each of
the first four followed by its scheduled reconnection) the push channel is
not permanently stopped — a fifth reconnection is pending with the fixed
2000 ms delay, and when it fires the subscription is open again. -/
theorem C3_counterexample :
    (run fiveErrTrace (sessionStart "j3")).pendingReconnect = some 2000 ∧
    (run (fiveErrTrace ++ [Ev.reconnectFire]) (sessionStart "j3")).eventSource = true := by
  decide

/-- C3 amended: each of the first five consecutive transport errors tears
the subscription down and schedules a reconnection after the fixed 2000 ms
delay; any message delivery resets the failure counter to zero; and the
sixth consecutive failure — the failure of the fifth scheduled reconnection
— leaves the push channel permanently stopped: no event whatsoever revives
it. -/
theorem C3_reconnect_bound (s : St) (d : JobSnapshot) (evs : List Ev) :
    (s.eventSource = true → s.retryCount < maxRetries →
      (stepSseError s).eventSource = false ∧
      (stepSseError s).pendingReconnect = some RECONNECT_DELAY_MS ∧
      (stepSseError s).retryCount = s.retryCount + 1) ∧
    (s.eventSource = true → (stepSseMessage (some d) s).retryCount = 0) ∧
    (s.eventSource = true → s.retryCount = maxRetries → s.pendingReconnect = none →
      pushStopped (stepSseError s)) ∧
    (pushStopped s → pushStopped (run evs s)) := by
  refine ⟨?_, ?_, ?_, ?_⟩
  · intro h1 h2
    rw [stepSseError, if_pos h1, if_pos (by omega : s.retryCount + 1 ≤ maxRetries)]
    exact ⟨rfl, rfl, rfl⟩
  · intro h1
    rw [stepSseMessage, if_pos h1]
    dsimp only
    split
    · split
      · simp [updateProgress_retryCount]
      · simp [updateProgress_retryCount]
    · simp [updateProgress_retryCount]
  · intro h1 h2 h3
    rw [stepSseError, if_pos h1,
      if_neg (by omega : ¬ s.retryCount + 1 ≤ maxRetries)]
    exact ⟨rfl, h3⟩
  · intro h
    exact pushStopped_run evs s h

/-- C3 witness: with `retryCount = 2` the next error schedules a 2000 ms
reconnection; a message resets the counter; with `retryCount = 5` the next
error stops the channel for good, surviving a late timer fire and further
errors. -/
theorem C3_witness :
    ((stepSseError s2after).pendingReconnect = some 2000 ∧
     (stepSseError s2after).retryCount = 3) ∧
    (stepSseMessage (some snapRun25) s2after).retryCount = 0 ∧
    ((stepSseError s5after).eventSource = false ∧
     (stepSseError s5after).pendingReconnect = none) ∧
    (run [Ev.reconnectFire, Ev.sseError] (stepSseError s5after)).eventSource = false := by
  have hA := C3_reconnect_bound s2after snapRun25 []
  have hB := C3_reconnect_bound s5after snapRun25 []
  have hstop : pushStopped (stepSseError s5after) :=
    hB.2.2.1 (by decide) (by decide) (by decide)
  have hC := C3_reconnect_bound (stepSseError s5after) snapRun25
    [Ev.reconnectFire, Ev.sseError]
  have h1 := hA.1 (by decide) (by decide)
  exact ⟨⟨h1.2.1, h1.2.2⟩, hA.2.1 (by decide), hstop, (hC.2.2.2 hstop).1⟩

/-- C6 counterexample: a `running` snapshot carrying `progress = -5`
displays -5 — not the 0 that clamping to `[0,100]` would give. -/
theorem C6_counterexample :
    (updateProgress snapRunNeg (sessionStart "j6")).ui.progressFillPct = -5 ∧
    (updateProgress snapRunNeg (sessionStart "j6")).ui.progressFillPct ≠ clampSpec (-5) := by
  decide

/-- C6 amended: the displayed percentage is `snapshot.progress` as-is
(absent treated as 0), with no clamping, smoothing or interpolation; only a
`complete` snapshot afterwards forces the display to 100. -/
theorem C6_unclamped_display (d : JobSnapshot) (s : St) :
    (updateProgressUI d s.ui).progressFillPct = d.progress.getD 0 ∧
    (updateProgressUI d s.ui).progressTextPct = d.progress.getD 0 ∧
    (d.status ≠ "complete" →
      (updateProgress d s).ui.progressFillPct = d.progress.getD 0) := by
  refine ⟨rfl, rfl, ?_⟩
  intro h
  rw [updateProgress, if_neg h]
  by_cases he : d.status = "error"
  · rw [if_pos he]; rfl
  · rw [if_neg he]; rfl

/-- C6 witness: above-range and below-range progress values pass through
unmodified. -/
theorem C6_witness :
    (updateProgress snapRunNeg (sessionStart "j6b")).ui.progressFillPct = -5 ∧
    (updateProgressUI ⟨"running", some "tts", some 150, none, none⟩ initUI).progressFillPct = 150 := by
  have h1 := (C6_unclamped_display snapRunNeg (sessionStart "j6b")).2.2 (by decide)
  have h2 := (C6_unclamped_display ⟨"running", some "tts", some 150, none, none⟩
    (sessionStart "j6b")).1
  exact ⟨h1, h2⟩

/-- C7: a `complete` snapshot yields the success outcome — every stage
complete, bar forced to 100, download link built from the session's job id —
and an `error` snapshot yields the failure outcome carrying the snapshot's
error text. -/
theorem C7_terminal_outcomes (d : JobSnapshot) (s : St) (jid e : String)
    (hjid : s.currentJobId = some jid) :
    (d.status = "complete" →
      (∀ v ∈ (updateProgress d s).ui.stages, v = StageView.complete) ∧
      (updateProgress d s).ui.progressFillPct = 100 ∧
      (updateProgress d s).ui.progressTextPct = 100 ∧
      (updateProgress d s).ui.downloadHref = "/api/download/" ++ jid ∧
      (updateProgress d s).ui.resultVisible = true ∧
      (updateProgress d s).ui.successVisible = true ∧
      (updateProgress d s).ui.errorVisible = false) ∧
    (d.status = "error" → d.error = some e → e ≠ "" →
      (updateProgress d s).ui.resultVisible = true ∧
      (updateProgress d s).ui.errorVisible = true ∧
      (updateProgress d s).ui.successVisible = false ∧
      (updateProgress d s).ui.errorMessage = e) := by
  constructor
  · intro h
    rw [updateProgress, if_pos h]
    refine ⟨?_, rfl, rfl, ?_, rfl, rfl, rfl⟩
    · intro v hv
      have hv2 : v ∈ (updateProgressUI d s.ui).stages.map
          (fun _ => StageView.complete) := hv
      obtain ⟨t, _, h3⟩ := List.mem_map.mp hv2
      exact h3.symm
    · show "/api/download/" ++ jsIdStr s.currentJobId = "/api/download/" ++ jid
      rw [hjid]
      rfl
  · intro h he hne
    rw [updateProgress, if_neg (by rw [h]; decide), if_pos h]
    refine ⟨rfl, rfl, rfl, ?_⟩
    show jsOrS d.error "An unknown error occurred." = e
    rw [he]
    simp [jsOrS, hne]

/-- C7 witness: the scenario of the spec — a `complete` snapshot for job
`abc123` and an `error` snapshot "disk full" for job `xyz`. -/
theorem C7_witness :
    (updateProgress snapComplete (sessionStart "abc123")).ui.downloadHref = "/api/download/abc123" ∧
    (updateProgress snapComplete (sessionStart "abc123")).ui.successVisible = true ∧
    (updateProgress snapComplete (sessionStart "abc123")).ui.progressFillPct = 100 ∧
    (updateProgress snapErrDisk (sessionStart "xyz")).ui.errorMessage = "disk full" ∧
    (updateProgress snapErrDisk (sessionStart "xyz")).ui.errorVisible = true := by
  have hc := (C7_terminal_outcomes snapComplete (sessionStart "abc123")
    "abc123" "x" rfl).1 rfl
  have he := (C7_terminal_outcomes snapErrDisk (sessionStart "xyz")
    "xyz" "disk full" rfl).2 rfl rfl (by decide)
  exact ⟨hc.2.2.2.1, hc.2.2.2.2.2.1, hc.2.1, he.2.2.2, he.2.1⟩

/-- C8 counterexample: during resume, a transport error — a network failure
or a non-success response — clears the persisted resume state, contrary to
the claim that it must be preserved. -/
theorem C8_counterexample :
    (resumeActiveJob FetchResult.netError (idleSt "jr")).storage = none ∧
    (resumeActiveJob FetchResult.badStatus (idleSt "jr")).storage = none := by
  decide

/-- C8 amended: for a persisted nonempty job id, a transport-error state
query — network failure and non-success response alike — clears the
persisted id and changes nothing else; the code does not distinguish
transport errors from the service reporting the id unknown. -/
theorem C8_failed_resume_clears (s : St) (jid : String) (fr : FetchResult)
    (hst : s.storage = some jid) (hjid : jid ≠ "")
    (hfr : fr = FetchResult.netError ∨ fr = FetchResult.badStatus) :
    resumeActiveJob fr s = { s with storage := none } := by
  obtain ⟨cj, stg, es, rc, pr, pt, u⟩ := s
  have hst2 : stg = some jid := hst
  subst hst2
  rcases hfr with h | h <;> subst h <;>
    simp only [resumeActiveJob] <;> rw [if_neg hjid]

/-- C8 witness: a 500-class response on resume wipes the stored id of job
`j8` and leaves the rest of the state untouched. -/
theorem C8_witness :
    resumeActiveJob FetchResult.badStatus (idleSt "j8") =
      { idleSt "j8" with storage := none } :=
  C8_failed_resume_clears (idleSt "j8") "j8" FetchResult.badStatus rfl
    (by decide) (Or.inr rfl)

/-- C9 counterexample: with a faulted storage layer the resume-time load
throws, and `resumeActiveJob` propagates the exception to its caller instead
of degrading to "no persisted job". -/
theorem C9_counterexample :
    resumeActiveJobLS StorageLayer.faulted (FetchResult.ok snapRun25) (idleSt "j9") =
      Except.error () := rfl

/-- C9 amended: the resume-store load is an unguarded storage call — under a
faulted storage layer it propagates an exception out of `resumeActiveJob`
for every fetch outcome and every prior state, rather than degrading to "no
job id persisted". -/
theorem C9_fault_propagates (fr : FetchResult) (s : St) :
    resumeActiveJobLS StorageLayer.faulted fr s = Except.error () := rfl
